import Mathlib

/-!
Shallow embedding of the EGAP factory orchestrator core
(`services/orchestrator/src/index.ts`, plus the legacy worker), covering:
the persistence data model (Agent, Task, Message, UsageLog, TraceSpan),
the Pub/Sub worker `handleMessage` (CHAT / RESUME / unknown branches),
the governance endpoints `/api/tasks/:id/approve` and `/api/tasks/:id/reject`,
and the fallback extraction of a function call from malformed model output.
All definitions are executable; machine effects (Prisma writes, ack/nack,
model calls, mock tool executions) are made explicit in the result record.
-/

namespace Egap

/-- Task status values used by the orchestrator (the Prisma enum; RUNNING
appears only in the zombie-detection query). -/
inductive TaskStatus
  | PENDING
  | APPROVED
  | REJECTED
  | COMPLETED
  | RUNNING
deriving DecidableEq, Repr

/-- An Agent record as read by the worker (`prisma.agent`). The lifecycle
status is the string "LIVE" or "DRAFT". -/
structure Agent where
  id : String
  name : String
  role : String
  goal : String
  systemPrompt : String
  status : String
  tools : List String
deriving DecidableEq, Repr

/-- A Message record (`prisma.message`). `tokens` and `cost` are nullable
and only backfilled by the CHAT cost-accounting step. -/
structure Msg where
  id : String
  agentId : String
  role : String
  content : String
  tokens : Option Nat
  cost : Option ℚ
deriving DecidableEq, Repr

/-- Tool-call argument objects and task payloads are flat string-keyed
JSON objects in this system; modelled as association lists in insertion
order (JS object semantics: later assignment to an existing key
overwrites in place). -/
abbrev Obj := List (String × String)

/-- A Task record (`prisma.task`). `inputPayload` is the nullable JSON
payload (the tool arguments awaiting approval). -/
structure Task where
  id : String
  description : String
  status : TaskStatus
  agentId : String
  inputPayload : Option Obj
  traceId : Option String
deriving DecidableEq, Repr

/-- A UsageLog record (`prisma.usageLog`); written only by the legacy
worker, never by the current monolith worker. -/
structure UsageLog where
  agentId : String
  action : String
  tokens : Nat
  costUsd : ℚ
deriving DecidableEq, Repr

/-- A TraceSpan record (`prisma.traceSpan`); written only by the legacy
worker. `status` defaults to "OK" and is set to "ERROR" by its catch
handler. -/
structure TraceSpan where
  id : String
  traceId : String
  parentId : Option String
  service : String
  operation : String
  status : String
deriving DecidableEq, Repr

/-- The persistence store visible to the worker and the governance
endpoints. `emergencyStop` models the `globalSettings` row for key
"emergency_stop" having `value.active === true`. -/
structure DB where
  agents : List Agent
  tasks : List Task
  messages : List Msg
  usageLogs : List UsageLog
  traceSpans : List TraceSpan
  emergencyStop : Bool
deriving DecidableEq, Repr

/-- JS truthiness of an optional string field (only the empty string and
absence are falsy). -/
def truthy : Option String → Bool
  | none => false
  | some s => s ≠ ""

/-- JS object insertion `o[k] = v`: overwrite in place when the key
exists, else append. -/
def objInsert (o : Obj) (k v : String) : Obj :=
  if o.any (fun p => p.1 == k) then
    o.map (fun p => if p.1 == k then (k, v) else p)
  else
    o ++ [(k, v)]

/-- Build a JS object from a list of key/value assignments in order. -/
def buildArgs (ps : List (String × String)) : Obj :=
  ps.foldl (fun o p => objInsert o p.1 p.2) []

/-- JSON.stringify of a flat string object (values assumed free of
characters needing escapes, as in this system's payloads). -/
def jsonStringify (o : Obj) : String :=
  "\x7b" ++ String.intercalate ","
    (o.map (fun p => "\"" ++ p.1 ++ "\":\"" ++ p.2 ++ "\"")) ++ "\x7d"

/-! ### Fallback extraction of a function call from malformed model text

The worker recovers a function call from a `finishMessage` of shape
`print(fn_name(arg1=\x27v1\x27, arg2=\x27v2\x27))` using the JS regexes
`print\((\w+)\((.*)\)\)` (first match, greedy `.*`, `.` excluding
newline) and `(\w+)=[\x27"]([^\x27"]*)[\x27"]` applied repeatedly
(`matchAll`). The matchers below reproduce those semantics. -/

/-- JS `\w`: ASCII letters, digits and underscore. -/
def isWordChar (c : Char) : Bool :=
  c.isAlpha || c.isDigit || c == '_'

/-- Does the list start with a doubled closing parenthesis? -/
def startsDoubleParen : List Char → Bool
  | ')' :: ')' :: _ => true
  | _ => false

/-- Greedy `(.*)\)\)` on the tail `t`: the longest newline-free prefix of
`t` that is immediately followed by `))` (the regex backtracks from the
longest `.*`, so the last feasible split wins). -/
def matchTail (t : List Char) : Option (List Char) :=
  let limit := (t.takeWhile (fun c => c ≠ '\n')).length
  (List.range (limit + 1)).foldl
    (fun acc j => if startsDoubleParen (t.drop j) then some (t.take j) else acc)
    none

/-- Try the whole regex `print\((\w+)\((.*)\)\)` anchored at the head of
`s`; on success return (function name, raw argument text). -/
def matchPrintAt (s : List Char) : Option (List Char × List Char) :=
  match s with
  | 'p' :: 'r' :: 'i' :: 'n' :: 't' :: '(' :: rest =>
    let w := rest.takeWhile isWordChar
    if w.isEmpty then none
    else
      match rest.drop w.length with
      | '(' :: t => (matchTail t).map (fun m => (w, m))
      | _ => none
  | _ => none

/-- Leftmost match of `print\((\w+)\((.*)\)\)` in `s` (JS
`String.prototype.match` without the global flag). -/
def extractPrintCall : List Char → Option (List Char × List Char)
  | [] => none
  | c :: tl =>
    match matchPrintAt (c :: tl) with
    | some r => some r
    | none => extractPrintCall tl

/-- Try the kwarg regex `(\w+)=[\x27"]([^\x27"]*)[\x27"]` anchored at the
head of `s`; on success return ((key, value), remainder after the
match). -/
def matchKwAt (s : List Char) : Option ((List Char × List Char) × List Char) :=
  let w := s.takeWhile isWordChar
  if w.isEmpty then none
  else
    match s.drop w.length with
    | '=' :: q :: rest =>
      if q == '\x27' || q == '"' then
        let v := rest.takeWhile (fun c => c ≠ '\x27' ∧ c ≠ '"')
        match rest.drop v.length with
        | _ :: rest2 => some ((w, v), rest2)
        | [] => none
      else none
    | _ => none

/-- All matches of the kwarg regex in order (JS `matchAll`: search
resumes after each match, or one position on from a failed start).
`fuel` bounds the scan; every step consumes at least one character, so
`s.length` fuel is enough. -/
def kwMatchesAux : Nat → List Char → List (String × String)
  | 0, _ => []
  | _ + 1, [] => []
  | fuel + 1, c :: tl =>
    match matchKwAt (c :: tl) with
    | some (⟨k, v⟩, rest) => (String.mk k, String.mk v) :: kwMatchesAux fuel rest
    | none => kwMatchesAux fuel tl

/-- All kwarg matches of a string. -/
def kwMatches (s : String) : List (String × String) :=
  kwMatchesAux s.data.length s.data

/-- A normalized function-call result recovered from the model. -/
structure FunctionCall where
  name : String
  args : Obj
deriving DecidableEq, Repr

/-- The whole fallback path of the worker: regex-extract the call shape
from the raw finish message, then fold the kwarg matches into an
argument object. `none` when the outer regex does not match. -/
def fallbackExtract (raw : String) : Option FunctionCall :=
  (extractPrintCall raw.data).map
    (fun r => { name := String.mk r.1, args := buildArgs (kwMatches (String.mk r.2)) })

/-! ### The reasoning-model result shape consumed by the worker -/

/-- One part of a candidate's content: either text or a structured
function call (the worker reads only `parts[0]`). -/
structure Part where
  text : Option String
  functionCall : Option FunctionCall
deriving DecidableEq, Repr

/-- One response candidate. `parts` abbreviates `content.parts`;
`finishReason`/`finishMessage` carry the malformed-call fallback data. -/
structure Candidate where
  parts : List Part
  finishReason : Option String
  finishMessage : Option String
deriving DecidableEq, Repr

/-- Token usage metadata (`result.usageMetadata`); each count is
nullable and defaulted to 0 by the worker. -/
structure Usage where
  promptTokenCount : Option Nat
  candidatesTokenCount : Option Nat
  totalTokenCount : Option Nat
deriving DecidableEq, Repr

/-- The reasoning-model response consumed by the worker
(`result.candidates` / `result.usageMetadata`). -/
structure GenResult where
  candidates : List Candidate
  usageMetadata : Option Usage
deriving DecidableEq, Repr

/-- Inbound bus event envelopes routed by the worker. -/
inductive Event
  | chat (agentId message : String) (dbMessageId : Option String) (traceId : Option String)
  | resume (taskId agentId : String) (action : String)
  | unknown
deriving DecidableEq, Repr

/-- The worker's decision on the bus message. -/
inductive AckDecision
  | ack
  | nack
deriving DecidableEq, Repr

/-- Observable outcome of one `handleMessage` invocation: the store
after all writes, the ack/nack decision, whether the reasoning model was
invoked, and which (mock) tool executions ran. -/
structure HandleResult where
  db : DB
  decision : AckDecision
  modelCalled : Bool
  toolExecutions : List String
deriving DecidableEq, Repr

/-! ### Persistence helpers used by the worker and the endpoints -/

/-- `prisma.task.findUnique(\x7b where: \x7b id \x7d \x7d)`. -/
def findTask (db : DB) (taskId : String) : Option Task :=
  db.tasks.find? (fun t => t.id == taskId)

/-- `prisma.agent.findUnique(\x7b where: \x7b id \x7d \x7d)`. -/
def findAgent (db : DB) (agentId : String) : Option Agent :=
  db.agents.find? (fun a => a.id == agentId)

/-- `prisma.task.update(\x7b where: \x7b id \x7d, data: \x7b status \x7d \x7d)`
(precondition that the record exists is checked by the callers). -/
def updateTaskStatus (db : DB) (taskId : String) (st : TaskStatus) : DB :=
  { db with tasks := db.tasks.map (fun t => if t.id == taskId then { t with status := st } else t) }

/-- `prisma.message.create`. -/
def createMsg (db : DB) (m : Msg) : DB :=
  { db with messages := db.messages ++ [m] }

/-- Fresh id for a created Task (Prisma generates ids; modelled
deterministically from the store). -/
def freshTaskId (db : DB) : String :=
  "task-" ++ toString db.tasks.length

/-- Fresh id for a created Message. -/
def freshMsgId (db : DB) : String :=
  "msg-" ++ toString db.messages.length

/-- JS `x || null` on an optional string (empty string collapses to
null), as in `traceId: data.traceId || null`. -/
def jsOrNull : Option String → Option String
  | none => none
  | some s => if s = "" then none else some s

/-! ### Worker: RESUME branch of `handleMessage` -/

/-- RESUME branch of `handleMessage` (monolith worker, lines 395-450):
skip non-APPROVED actions; drop events for a missing task or missing
payload; otherwise execute the action re-derived from the payload shape
(presence of truthy recipient/subject/body means send_email), set the
task status to COMPLETED unconditionally, and append a confirmation
assistant Message only when the agent lookup succeeds. -/
def handleResume (db : DB) (taskId agentId action : String) : HandleResult :=
  if action ≠ "APPROVED" then
    ⟨db, .ack, false, []⟩
  else
    match findTask db taskId with
    | none => ⟨db, .ack, false, []⟩
    | some task =>
      match task.inputPayload with
      | none => ⟨db, .ack, false, []⟩
      | some payload =>
        let isEmail := truthy (payload.lookup "recipient")
          && truthy (payload.lookup "subject") && truthy (payload.lookup "body")
        let toolOutput :=
          if isEmail then
            "[System] Email sent to " ++ ((payload.lookup "recipient").getD "")
          else
            "[System] Approved action executed: " ++ jsonStringify payload
        let executed := if isEmail then ["send_email"] else ["approved_action"]
        let db1 := updateTaskStatus db taskId .COMPLETED
        let db2 :=
          match findAgent db1 agentId with
          | some _ =>
            createMsg db1
              { id := freshMsgId db1, agentId := agentId, role := "assistant"
                content := toolOutput, tokens := none, cost := none }
          | none => db1
        ⟨db2, .ack, false, executed⟩

/-! ### Worker: CHAT branch of `handleMessage` -/

/-- Placeholder reply when the model produced no usable text
(JS `firstPart?.text || "..."`). -/
def apologyText : String :=
  "I\x27m sorry, I couldn\x27t generate a response."

/-- The default text reply derived from the (possibly fallback-mocked)
first part: `firstPart?.text || apology` with JS falsiness of the empty
string. -/
def responseTextOf (firstPart : Option Part) : String :=
  match firstPart.bind (fun p => p.text) with
  | some t => if t = "" then apologyText else t
  | none => apologyText

/-- Per-token pricing applied to a model call
(`inputTokens * 0.00001875 / 1000 + outputTokens * 0.000075 / 1000`). -/
def chatCost (inputTokens outputTokens : Nat) : ℚ :=
  (inputTokens : ℚ) * (1875 / 100000000) / 1000 + (outputTokens : ℚ) * (75 / 1000000) / 1000

/-- The first part the worker acts on: parts[0] of the first candidate,
replaced by a mocked function-call part when the UNEXPECTED_TOOL_CALL
fallback extraction succeeds. This is the normalized reasoning result in
the sense of spec section 4.4 (post-fallback). -/
def effectiveFirstPart (gen : GenResult) : Option Part :=
  let firstCandidate := gen.candidates.head?
  let firstPart0 := firstCandidate.bind (fun c => c.parts.head?)
  match firstCandidate with
  | some c =>
    if c.finishReason = some "UNEXPECTED_TOOL_CALL" ∧ truthy c.finishMessage then
      match fallbackExtract ((c.finishMessage).getD "") with
      | some fn => some { text := none, functionCall := some fn }
      | none => firstPart0
    else firstPart0
  | none => firstPart0

/-- Does the cost-backfill step complete without throwing? It is skipped
when the event carries no truthy dbMessageId; when it runs,
prisma.message.update requires a Message with that id to exist. -/
def costBackfillOk (db : DB) (dbMessageId : Option String) : Bool :=
  !(truthy dbMessageId) || db.messages.any (fun m => m.id == dbMessageId.getD "")

/-- The cost backfill: `if (data.dbMessageId) await prisma.message.update(...)`
(a falsy id skips the update with a warning). `none` models the P2025
throw of `update` when no Message has the id; the top-level catch then
negative-acknowledges with no writes having happened. -/
def backfillCost (db : DB) (dbMessageId : Option String) (totalTokens : Nat) (cost : ℚ) : Option DB :=
  if truthy dbMessageId then
    if db.messages.any (fun m => m.id == dbMessageId.getD "") then
      let backfilled : List Msg := db.messages.map
        (fun m => if m.id == dbMessageId.getD "" then { m with tokens := some totalTokens, cost := some cost } else m)
      some { db with messages := backfilled }
    else none
  else some db

/-- Processing of a successful model result inside the CHAT branch
(cost accounting with its fallible prisma.message.update, fallback
extraction, function-calling branch, default text reply); returns the
store, the decision and the tool executions. A failed cost backfill
(P2025) aborts processing: the catch nacks with the store untouched. -/
def chatWithModel (db : DB) (agent : Agent) (dbMessageId : Option String)
    (traceId : Option String) (gen : GenResult) : DB × AckDecision × List String :=
  let inputTokens := (gen.usageMetadata.bind (fun u => u.promptTokenCount)).getD 0
  let outputTokens := (gen.usageMetadata.bind (fun u => u.candidatesTokenCount)).getD 0
  let totalTokens := (gen.usageMetadata.bind (fun u => u.totalTokenCount)).getD 0
  let cost := chatCost inputTokens outputTokens
  match backfillCost db dbMessageId totalTokens cost with
  | none => (db, .nack, [])
  | some db1 =>
  let firstPart : Option Part := effectiveFirstPart gen
  match firstPart.bind (fun p => p.functionCall) with
  | some fn =>
    if fn.name = "send_email" then
      let task : Task :=
        { id := freshTaskId db1
          description := "Agent wants to send email to " ++ ((fn.args.lookup "recipient").getD "undefined")
          status := .PENDING
          agentId := agent.id
          inputPayload := some fn.args
          traceId := jsOrNull traceId }
      let db2 := { db1 with tasks := db1.tasks ++ [task] }
      let db3 := createMsg db2
        { id := freshMsgId db2, agentId := agent.id, role := "assistant"
          content := "[System] Usage of tool \x27" ++ fn.name ++ "\x27 requires Admin Approval. Task "
            ++ task.id ++ " created."
          tokens := some totalTokens, cost := some cost }
      (db3, .ack, [])
    else if fn.name = "search_vertex_docs" then
      let output := "Found docs for query \x27" ++ ((fn.args.lookup "query").getD "undefined")
        ++ "\x27: Vertex AI is Google\x27s fully managed AI platform..."
      let db2 := createMsg db1
        { id := freshMsgId db1, agentId := agent.id, role := "assistant"
          content := "(Tool: " ++ fn.name ++ ") " ++ output
          tokens := some totalTokens, cost := some cost }
      (db2, .ack, ["search_vertex_docs"])
    else
      (createMsg db1
        { id := freshMsgId db1, agentId := agent.id, role := "assistant"
          content := responseTextOf firstPart, tokens := some totalTokens, cost := some cost }, .ack, [])
  | none =>
    (createMsg db1
      { id := freshMsgId db1, agentId := agent.id, role := "assistant"
        content := responseTextOf firstPart, tokens := some totalTokens, cost := some cost }, .ack, [])

/-- CHAT branch of `handleMessage` (monolith worker, lines 452-666):
emergency-stop gate first (ack and drop with no writes), then agent
lookup by id (no lifecycle-status filter; missing agent is acked with no
writes), then the model call; a model-call failure is caught by the
top-level handler, which nacks with no prior writes. -/
def handleChat (db : DB) (agentId message : String) (dbMessageId : Option String)
    (traceId : Option String) (model : Except String GenResult) : HandleResult :=
  if db.emergencyStop then
    ⟨db, .ack, false, []⟩
  else
    match findAgent db agentId with
    | none => ⟨db, .ack, false, []⟩
    | some agent =>
      match model with
      | .error _ => ⟨db, .nack, true, []⟩
      | .ok gen =>
        let r := chatWithModel db agent dbMessageId traceId gen
        ⟨r.1, r.2.1, true, r.2.2⟩

/-- The worker handler (`handleMessage`): route by event type; unknown
types are acknowledged without side effects. The reasoning model is an
oracle input (`model`), used only by the CHAT branch. -/
def handleMessage (db : DB) (ev : Event) (model : Except String GenResult) : HandleResult :=
  match ev with
  | .resume taskId agentId action => handleResume db taskId agentId action
  | .chat agentId message dbMessageId traceId => handleChat db agentId message dbMessageId traceId model
  | .unknown => ⟨db, .ack, false, []⟩

/-! ### Governance endpoints -/

/-- Result of a governance endpoint call: the store, the HTTP status
code, and any RESUME events published to the bus. -/
structure EndpointResult where
  db : DB
  status : Nat
  published : List Event
deriving DecidableEq, Repr

/-- `POST /api/tasks/:id/approve`: `prisma.task.update` sets status
APPROVED whenever the record exists (no precondition on the current
status; a missing record throws, caught as 404), then publishes a
RESUME event with action APPROVED. -/
def approveTaskEndpoint (db : DB) (taskId : String) : EndpointResult :=
  match findTask db taskId with
  | none => ⟨db, 404, []⟩
  | some task =>
    ⟨updateTaskStatus db taskId .APPROVED, 200, [Event.resume taskId task.agentId "APPROVED"]⟩

/-- `POST /api/tasks/:id/reject`: `prisma.task.update` sets status
REJECTED whenever the record exists (no precondition on the current
status; a missing record throws, caught as 404). -/
def rejectTaskEndpoint (db : DB) (taskId : String) : EndpointResult :=
  match findTask db taskId with
  | none => ⟨db, 404, []⟩
  | some _ => ⟨updateTaskStatus db taskId .REJECTED, 200, []⟩

/-! ### Legacy worker fragments (the role-routed worker) -/

/-- Legacy worker agent lookup:
`prisma.agent.findFirst(\x7b where: \x7b role: source, status: "LIVE" \x7d \x7d)`. -/
def legacyAgentLookup (agents : List Agent) (source : String) : Option Agent :=
  agents.find? (fun a => a.role == source && a.status == "LIVE")

/-- Legacy worker catch handler (lines 225-237 of the role-routed
worker): when a trace id was established, set the root span's status to
ERROR, then acknowledge the message (it does NOT nack). -/
def legacyCatchHandler (db : DB) (rootSpanId : String) (traceId : String) : DB × AckDecision :=
  let db1 :=
    if traceId ≠ "" then
      let marked := db.traceSpans.map
        (fun s => if s.id == rootSpanId then { s with status := "ERROR" } else s)
      { db with traceSpans := marked }
    else db
  (db1, .ack)

/-! ### Concrete fixtures used by the theorems and witnesses -/

/-- A LIVE agent with the gated tool enabled. -/
def agentA : Agent :=
  { id := "a1", name := "Mailer", role := "ops", goal := "g"
    systemPrompt := "sp", status := "LIVE", tools := ["send_email"] }

/-- A DRAFT (non-LIVE) agent. -/
def agentD : Agent :=
  { id := "a2", name := "DraftBot", role := "ops", goal := "g"
    systemPrompt := "sp", status := "DRAFT", tools := [] }

/-- A stored send_email payload (tool arguments awaiting approval). -/
def payloadEmail : Obj :=
  [("recipient", "bob@example.com"), ("subject", "Hi"), ("body", "Yo")]

/-- Task t1 already COMPLETED, still carrying its payload. -/
def taskDone : Task :=
  { id := "t1", description := "d", status := .COMPLETED, agentId := "a1"
    inputPayload := some payloadEmail, traceId := none }

/-- Task t1 still PENDING, carrying the same payload. -/
def taskPend : Task :=
  { taskDone with status := .PENDING }

/-- Task t1 REJECTED. -/
def taskRej : Task :=
  { taskDone with status := .REJECTED }

/-- The confirmation line the RESUME execution writes for
`payloadEmail`. -/
def emailSentLine : String :=
  "[System] Email sent to bob@example.com"

/-- The confirmation Message written by the first delivery of the RESUME
event for t1. -/
def msgConfirm : Msg :=
  { id := "msg-0", agentId := "a1", role := "assistant"
    content := emailSentLine, tokens := none, cost := none }

/-- Base store: one LIVE agent, nothing else. -/
def dbBase : DB :=
  { agents := [agentA], tasks := [], messages := [], usageLogs := []
    traceSpans := [], emergencyStop := false }

/-- Store after the first successful RESUME execution: t1 COMPLETED and
its confirmation Message already written. -/
def dbCompleted : DB :=
  { dbBase with tasks := [taskDone], messages := [msgConfirm] }

/-- Store holding t1 still PENDING. -/
def dbPending : DB :=
  { dbBase with tasks := [taskPend] }

/-- Store holding t1 REJECTED. -/
def dbRejected : DB :=
  { dbBase with tasks := [taskRej] }

/-- Store whose only agent is the DRAFT agent. -/
def dbDraft : DB :=
  { dbBase with agents := [agentD] }

/-- Base store with the emergency stop engaged. -/
def dbEmergency : DB :=
  { dbBase with emergencyStop := true }

/-- Model oracle for branches that never reach the model call. -/
def noModel : Except String GenResult :=
  .error "unused"

/-- A plain text model reply. -/
def genText : GenResult :=
  { candidates := [{ parts := [{ text := some "Hello!", functionCall := none }]
                     finishReason := some "STOP", finishMessage := none }]
    usageMetadata := some { promptTokenCount := some 10, candidatesTokenCount := some 5
                            totalTokenCount := some 15 } }

/-- The structured send_email function call returned by the model. -/
def fnEmail : FunctionCall :=
  { name := "send_email"
    args := [("recipient", "bob@x.com"), ("subject", "Hello"), ("body", "Hi there")] }

/-- The content part holding the structured send_email call. -/
def partEmail : Part :=
  { text := none, functionCall := some fnEmail }

/-- The candidate holding the structured send_email call. -/
def candEmail : Candidate :=
  { parts := [partEmail], finishReason := some "STOP", finishMessage := none }

/-- A model reply that is a structured send_email function call. -/
def genFnEmail : GenResult :=
  { candidates := [candEmail]
    usageMetadata := some { promptTokenCount := some 10, candidatesTokenCount := some 5
                            totalTokenCount := some 15 } }

/-- A malformed-call finish message that the fallback regex cannot
match (no print wrapper). -/
def rawBadFinish : String :=
  "Unexpected tool call: send_email(recipient=\x27a@b.com\x27)"

/-- A candidate flagged UNEXPECTED_TOOL_CALL whose finish message
defeats the fallback extraction and which has no parts. -/
def candBad : Candidate :=
  { parts := [], finishReason := some "UNEXPECTED_TOOL_CALL"
    finishMessage := some rawBadFinish }

/-- A model reply carrying only the unextractable candidate. -/
def genBad : GenResult :=
  { candidates := [candBad], usageMetadata := none }

/-- A finish message the fallback CAN extract (the print-wrapped
malformed call). -/
def rawGoodFinish : String :=
  "Unexpected tool call: print(send_email(recipient=\x27a@b.com\x27, subject=\x27Hi\x27, body=\x27Yo\x27))"

/-- The function call the fallback recovers from rawGoodFinish. -/
def fnEmailParsed : FunctionCall :=
  { name := "send_email", args := [("recipient", "a@b.com"), ("subject", "Hi"), ("body", "Yo")] }

/-- A candidate whose only usable content is the extractable malformed
call text (no structured parts). -/
def candFallback : Candidate :=
  { parts := [], finishReason := some "UNEXPECTED_TOOL_CALL", finishMessage := some rawGoodFinish }

/-- A model reply whose send_email call arrives only via the fallback
extraction. -/
def genFallback : GenResult :=
  { candidates := [candFallback], usageMetadata := none }

/-- A root trace span as recorded by the legacy worker. -/
def spanR : TraceSpan :=
  { id := "s1", traceId := "tr", parentId := none, service := "orchestrator"
    operation := "process_message", status := "OK" }

/-- Store holding one root trace span (legacy worker scenario). -/
def dbSpan : DB :=
  { dbBase with traceSpans := [spanR] }

/-- Store holding the PENDING task t1 but no agents at all. -/
def dbNoAgents : DB :=
  { dbPending with agents := [] }

/-! ### Claims -/

/-- C1: the claim says re-delivering a RESUME/APPROVED event for an
already-COMPLETED task is a no-op with no duplicate UsageLog or Message
writes. The code checks neither the task status nor prior side effects:
at this input (t1 COMPLETED with payload, its confirmation Message
already present, agent a1 live) the second delivery re-executes the
send_email action and appends a second, identical confirmation
Message. -/
theorem c1_resume_redelivery_not_idempotent :
    (handleMessage dbCompleted (.resume "t1" "a1" "APPROVED") noModel).decision = .ack ∧
    (handleMessage dbCompleted (.resume "t1" "a1" "APPROVED") noModel).toolExecutions = ["send_email"] ∧
    (handleMessage dbCompleted (.resume "t1" "a1" "APPROVED") noModel).db.messages.map
        (fun m => m.content) = [emailSentLine, emailSentLine] := by
  decide

/-- C2: the claim says no Task is ever moved directly from PENDING to
COMPLETED. The worker's RESUME branch sets status COMPLETED without
reading the current status: delivered against t1 while it is still
PENDING (with a payload), the task jumps PENDING to COMPLETED with no
intervening APPROVED. -/
theorem c2_pending_task_completed_directly :
    dbPending.tasks.map (fun t => t.status) = [TaskStatus.PENDING] ∧
    (handleMessage dbPending (.resume "t1" "a1" "APPROVED") noModel).db.tasks.map
        (fun t => t.status) = [TaskStatus.COMPLETED] := by
  decide

/-- C5: the claim says an illegal transition fails with an
InvalidTransition error and does not mutate the record. The endpoints
have no transition validation at all (no InvalidTransition exists in the
code): rejecting the COMPLETED task t1 returns HTTP 200 and mutates it
to REJECTED, and approving the REJECTED task t1 returns HTTP 200 and
mutates it to APPROVED. -/
theorem c5_illegal_transitions_succeed_and_mutate :
    (rejectTaskEndpoint dbCompleted "t1").status = 200 ∧
    (rejectTaskEndpoint dbCompleted "t1").db.tasks.map (fun t => t.status) = [TaskStatus.REJECTED] ∧
    (approveTaskEndpoint dbRejected "t1").status = 200 ∧
    (approveTaskEndpoint dbRejected "t1").db.tasks.map (fun t => t.status) = [TaskStatus.APPROVED] := by
  decide

/-- C8: the fallback extraction applied to the text
print(send_email(recipient=\x27a@b.com\x27, subject=\x27Hi\x27, body=\x27Yo\x27))
yields the normalized function call with name send_email and arguments
recipient=a@b.com, subject=Hi, body=Yo, in order. -/
theorem c8_fallback_normalizes_print_call :
    fallbackExtract "print(send_email(recipient=\x27a@b.com\x27, subject=\x27Hi\x27, body=\x27Yo\x27))" =
      some { name := "send_email"
             args := [("recipient", "a@b.com"), ("subject", "Hi"), ("body", "Yo")] } := by
  decide

/-- C3: with the emergency stop active, the CHAT branch acknowledges and
returns before any model call or write: the store (messages, usage logs,
everything) is returned unchanged, the decision is ack, the model is not
invoked, and no tool runs. -/
theorem c3_emergency_stop_drops_chat (db : DB) (agentId message : String)
    (dbMessageId traceId : Option String) (model : Except String GenResult)
    (h : db.emergencyStop = true) :
    handleMessage db (.chat agentId message dbMessageId traceId) model = ⟨db, .ack, false, []⟩ := by
  simp [handleMessage, handleChat, h]

/-- C3 witness: the emergency-stop theorem instantiated at the concrete
store with the flag engaged. -/
theorem c3_emergency_stop_drops_chat_witness :
    dbEmergency.emergencyStop = true ∧
    handleMessage dbEmergency (.chat "a1" "hi" none none) noModel = ⟨dbEmergency, .ack, false, []⟩ :=
  ⟨rfl, c3_emergency_stop_drops_chat dbEmergency "a1" "hi" none none noModel rfl⟩

/-- C4 counterexample: the claim says the created PENDING Task carries
the tool name and arguments as payload. At this input (structured
send_email call with three arguments) exactly one PENDING task is
created, but its inputPayload is exactly the argument object: no key and
no value of the payload is the tool name send_email (the name appears
only in the free-text description). -/
theorem c4_payload_lacks_tool_name :
    (handleMessage dbBase (.chat "a1" "email Bob" none (some "tr-1")) (.ok genFnEmail)).db.tasks.map
        (fun t => (t.status, t.inputPayload)) = [(TaskStatus.PENDING, some fnEmail.args)] ∧
    (∀ p ∈ fnEmail.args, p.1 ≠ "send_email" ∧ p.2 ≠ "send_email") := by
  decide

/-- C6 counterexample: the claim says an agent whose status is not LIVE
is never used to process a CHAT event. The worker resolves the agent by
unique id with no status filter: with the only agent in DRAFT status,
the CHAT event still invokes the model and persists the assistant
reply on behalf of that agent. -/
theorem c6_draft_agent_processes_chat :
    agentD.status = "DRAFT" ∧
    (handleMessage dbDraft (.chat "a2" "hi" none none) (.ok genText)).modelCalled = true ∧
    (handleMessage dbDraft (.chat "a2" "hi" none none) (.ok genText)).db.messages.map
        (fun m => (m.agentId, m.role, m.content)) = [("a2", "assistant", "Hello!")] := by
  decide

/-- C7 counterexample: the claim says that when fallback extraction
fails the reply content is the raw text of the model output. At this
input the finish message defeats the regex (extraction fails), the
candidate has no text part, and the persisted reply is the fixed apology
placeholder, which is neither the finish message nor any model text;
the event still completes with an ack. -/
theorem c7_failed_extraction_yields_apology :
    fallbackExtract rawBadFinish = none ∧
    (handleMessage dbBase (.chat "a1" "hi" none none) (.ok genBad)).decision = .ack ∧
    (handleMessage dbBase (.chat "a1" "hi" none none) (.ok genBad)).db.messages.map
        (fun m => m.content) = [apologyText] ∧
    apologyText ≠ rawBadFinish := by
  decide

/-- C9 counterexample: the claim says an unhandled processing error
marks the root trace span ERROR and nacks the event. At this input (a
reasoning-call failure during CHAT) the current worker does nack, but
its store holds no trace span at all afterwards, and in particular none
with status ERROR: the span-marking half of the claim is false. -/
theorem c9_error_nacks_without_error_span :
    handleMessage dbBase (.chat "a1" "hi" none none) (.error "boom") = ⟨dbBase, .nack, true, []⟩ ∧
    (∀ s ∈ (handleMessage dbBase (.chat "a1" "hi" none none) (.error "boom")).db.traceSpans,
      s.status ≠ "ERROR") := by
  decide

/-- C4 (amended): for every CHAT event whose normalized reasoning
result (parts[0] after the spec-4.4 fallback extraction, i.e. whether
the call arrived structured or was recovered from malformed text) is a
function call named send_email — with the agent resolved, the emergency
stop off, and the cost backfill not itself failing — the worker executes
no tool, creates exactly one PENDING Task whose payload is exactly the
call arguments (the tool name is not part of the payload, only of the
description text), appends exactly one assistant Message announcing that
approval is required, and acknowledges the event. -/
theorem c4_gated_tool_creates_pending_task
    (db : DB) (agentId message : String) (dbMessageId traceId : Option String)
    (gen : GenResult) (agent : Agent) (fn : FunctionCall)
    (hStop : db.emergencyStop = false)
    (hAgent : findAgent db agentId = some agent)
    (hMid : costBackfillOk db dbMessageId = true)
    (hFn : (effectiveFirstPart gen).bind (fun p => p.functionCall) = some fn)
    (hName : fn.name = "send_email") :
    (handleMessage db (.chat agentId message dbMessageId traceId) (.ok gen)).decision = .ack ∧
    (handleMessage db (.chat agentId message dbMessageId traceId) (.ok gen)).toolExecutions = [] ∧
    (handleMessage db (.chat agentId message dbMessageId traceId) (.ok gen)).db.tasks = db.tasks ++
      [{ id := freshTaskId db
         description := "Agent wants to send email to " ++ ((fn.args.lookup "recipient").getD "undefined")
         status := .PENDING
         agentId := agent.id
         inputPayload := some fn.args
         traceId := jsOrNull traceId }] ∧
    (handleMessage db (.chat agentId message dbMessageId traceId) (.ok gen)).db.messages.length
      = db.messages.length + 1 ∧
    (handleMessage db (.chat agentId message dbMessageId traceId) (.ok gen)).db.messages.getLast?.map
        (fun m => (m.role, m.content))
      = some ("assistant", "[System] Usage of tool \x27send_email\x27 requires Admin Approval. Task "
          ++ freshTaskId db ++ " created.") := by
  simp only [handleMessage, handleChat, hStop, Bool.false_eq_true, if_false, hAgent]
  simp only [chatWithModel, hFn, hName]
  rw [costBackfillOk] at hMid
  cases ht : truthy dbMessageId with
  | false =>
    simp [backfillCost, ht, freshTaskId, freshMsgId, createMsg, hFn, hName]
  | true =>
    rw [ht] at hMid
    simp only [Bool.not_true, Bool.false_or] at hMid
    simp [backfillCost, ht, hMid, freshTaskId, freshMsgId, createMsg, hFn, hName]

/-- C4 witness: the amended gated-tool theorem instantiated both at the
structured send_email reply and at the fallback-recovered send_email
reply (the UNEXPECTED_TOOL_CALL print-wrapped text). -/
theorem c4_gated_tool_creates_pending_task_witness :
    costBackfillOk dbBase none = true ∧
    (effectiveFirstPart genFnEmail).bind (fun p => p.functionCall) = some fnEmail ∧
    (handleMessage dbBase (.chat "a1" "email Bob" none (some "tr-1")) (.ok genFnEmail)).decision = .ack ∧
    (effectiveFirstPart genFallback).bind (fun p => p.functionCall) = some fnEmailParsed ∧
    (handleMessage dbBase (.chat "a1" "email Bob" none none) (.ok genFallback)).decision = .ack :=
  ⟨by decide, by decide,
    (c4_gated_tool_creates_pending_task dbBase "a1" "email Bob" none (some "tr-1") genFnEmail
      agentA fnEmail rfl (by decide) (by decide) (by decide) rfl).1,
   by decide,
    (c4_gated_tool_creates_pending_task dbBase "a1" "email Bob" none none genFallback
      agentA fnEmailParsed rfl (by decide) (by decide) (by decide) rfl).1⟩

/-- C6 (amended): the current worker resolves the agent of a CHAT event
by unique id with no lifecycle-status filter, so exactly one agent is
used whenever the id exists, LIVE or not: (1) when no agent has the id
the event is unroutable (acknowledged, no model call, no writes);
(2) whenever an agent with the id exists and the emergency stop is off,
the model is invoked on its behalf whatever its status; (3) only the
legacy role-routed worker's lookup guarantees a LIVE agent. -/
theorem c6_agent_resolution_amended :
    (∀ (db : DB) (agentId message : String) (dbMessageId traceId : Option String)
        (model : Except String GenResult), findAgent db agentId = none →
        handleMessage db (.chat agentId message dbMessageId traceId) model = ⟨db, .ack, false, []⟩) ∧
    (∀ (db : DB) (agentId message : String) (dbMessageId traceId : Option String)
        (model : Except String GenResult) (agent : Agent), db.emergencyStop = false →
        findAgent db agentId = some agent →
        (handleMessage db (.chat agentId message dbMessageId traceId) model).modelCalled = true) ∧
    (∀ (agents : List Agent) (source : String) (agent : Agent),
        legacyAgentLookup agents source = some agent → agent.status = "LIVE") := by
  refine ⟨?_, ?_, ?_⟩
  · intro db agentId message dbMessageId traceId model h
    by_cases hes : db.emergencyStop
    · simp [handleMessage, handleChat, hes]
    · simp [handleMessage, handleChat, hes, h]
  · intro db agentId message dbMessageId traceId model agent hes h
    cases model with
    | error e => simp [handleMessage, handleChat, hes, h]
    | ok gen => simp [handleMessage, handleChat, hes, h]
  · intro agents source agent h
    have hp := List.find?_some h
    simp only [Bool.and_eq_true, beq_iff_eq] at hp
    exact hp.2

/-- C6 witness: the amended resolution theorem instantiated at an
unknown agent id, at the LIVE agent, and at the legacy lookup. -/
theorem c6_agent_resolution_amended_witness :
    handleMessage dbBase (.chat "nobody" "hi" none none) noModel = ⟨dbBase, .ack, false, []⟩ ∧
    (handleMessage dbBase (.chat "a1" "hi" none none) (.ok genText)).modelCalled = true ∧
    agentA.status = "LIVE" :=
  ⟨c6_agent_resolution_amended.1 dbBase "nobody" "hi" none none noModel (by decide),
   c6_agent_resolution_amended.2.1 dbBase "a1" "hi" none none (.ok genText) agentA rfl (by decide),
   c6_agent_resolution_amended.2.2 [agentA] "ops" agentA (by decide)⟩

/-- C7 (amended): when the model reply is flagged UNEXPECTED_TOOL_CALL
with a truthy finish message but the fallback extraction fails, and the
first part carries no structured call — with the agent resolved, the
emergency stop off, and the cost backfill not itself failing — the event
falls through to the plain-text path and completes: it is acknowledged,
no Task or UsageLog is touched, and exactly one assistant Message is
appended whose content is the first part's text when present and
nonempty, else the fixed apology placeholder (not the raw
finish-message text). -/
theorem c7_failed_extraction_degrades_to_text
    (db : DB) (agentId message : String) (dbMessageId traceId : Option String)
    (gen : GenResult) (agent : Agent) (c : Candidate)
    (hStop : db.emergencyStop = false)
    (hAgent : findAgent db agentId = some agent)
    (hMid : costBackfillOk db dbMessageId = true)
    (hCand : gen.candidates.head? = some c)
    (hReason : c.finishReason = some "UNEXPECTED_TOOL_CALL")
    (hMsg : truthy c.finishMessage = true)
    (hExtract : fallbackExtract ((c.finishMessage).getD "") = none)
    (hNoCall : (c.parts.head?).bind (fun p => p.functionCall) = none) :
    (handleMessage db (.chat agentId message dbMessageId traceId) (.ok gen)).decision = .ack ∧
    (handleMessage db (.chat agentId message dbMessageId traceId) (.ok gen)).modelCalled = true ∧
    (handleMessage db (.chat agentId message dbMessageId traceId) (.ok gen)).db.tasks = db.tasks ∧
    (handleMessage db (.chat agentId message dbMessageId traceId) (.ok gen)).db.usageLogs = db.usageLogs ∧
    (handleMessage db (.chat agentId message dbMessageId traceId) (.ok gen)).db.messages.length
      = db.messages.length + 1 ∧
    (handleMessage db (.chat agentId message dbMessageId traceId) (.ok gen)).db.messages.getLast?.map
        (fun m => (m.role, m.content))
      = some ("assistant", responseTextOf c.parts.head?) := by
  simp only [handleMessage, handleChat, hStop, Bool.false_eq_true, if_false, hAgent]
  simp only [chatWithModel, effectiveFirstPart, hCand, hReason, hMsg, hExtract, hNoCall]
  rw [costBackfillOk] at hMid
  cases ht : truthy dbMessageId with
  | false =>
    simp [backfillCost, ht, freshMsgId, createMsg, hMsg, hExtract, hNoCall]
  | true =>
    rw [ht] at hMid
    simp only [Bool.not_true, Bool.false_or] at hMid
    simp [backfillCost, ht, hMid, freshMsgId, createMsg, hMsg, hExtract, hNoCall]

/-- C7 witness: the amended degradation theorem instantiated at the
concrete unextractable reply. -/
theorem c7_failed_extraction_degrades_to_text_witness :
    fallbackExtract ((candBad.finishMessage).getD "") = none ∧
    costBackfillOk dbBase none = true ∧
    (handleMessage dbBase (.chat "a1" "hi" none none) (.ok genBad)).decision = .ack :=
  ⟨by decide, by decide,
   (c7_failed_extraction_degrades_to_text dbBase "a1" "hi" none none genBad agentA candBad
     rfl (by decide) (by decide) rfl rfl (by decide) (by decide) rfl).1⟩

/-- C9 (amended): an unhandled error during processing (modelled as a
reasoning-call failure in a routable, non-stopped CHAT) makes the
current worker negative-acknowledge the event with no writes at all (in
particular no trace span is written or marked, since this worker records
none); the legacy worker's catch handler instead marks the root span
ERROR but ACKNOWLEDGES the event. Neither path exits the process (both
are total and return a decision). -/
theorem c9_error_handling_amended :
    (∀ (db : DB) (agentId message : String) (dbMessageId traceId : Option String) (e : String)
        (agent : Agent), db.emergencyStop = false → findAgent db agentId = some agent →
        handleMessage db (.chat agentId message dbMessageId traceId) (.error e) = ⟨db, .nack, true, []⟩) ∧
    (∀ (db : DB) (rootSpanId traceId : String),
        (legacyCatchHandler db rootSpanId traceId).2 = .ack) ∧
    (∀ (db : DB) (rootSpanId traceId : String) (s : TraceSpan), traceId ≠ "" →
        s ∈ db.traceSpans → s.id = rootSpanId →
        { s with status := "ERROR" } ∈ (legacyCatchHandler db rootSpanId traceId).1.traceSpans) := by
  refine ⟨?_, ?_, ?_⟩
  · intro db agentId message dbMessageId traceId e agent hes h
    simp [handleMessage, handleChat, hes, h]
  · intro db rootSpanId traceId
    by_cases ht : traceId = "" <;> simp [legacyCatchHandler, ht]
  · intro db rootSpanId traceId s ht hMem hId
    simp only [legacyCatchHandler, ht, ne_eq, not_false_eq_true, if_true]
    exact List.mem_map.mpr ⟨s, hMem, by simp [hId]⟩

/-- C9 witness: the amended error-handling theorem instantiated at a
failing model call and at the legacy catch handler with one root
span. -/
theorem c9_error_handling_amended_witness :
    handleMessage dbBase (.chat "a1" "hi" none none) (.error "boom") = ⟨dbBase, .nack, true, []⟩ ∧
    (legacyCatchHandler dbSpan "s1" "tr").2 = .ack ∧
    { spanR with status := "ERROR" } ∈ (legacyCatchHandler dbSpan "s1" "tr").1.traceSpans :=
  ⟨c9_error_handling_amended.1 dbBase "a1" "hi" none none "boom" agentA rfl (by decide),
   c9_error_handling_amended.2.1 dbSpan "s1" "tr",
   c9_error_handling_amended.2.2 dbSpan "s1" "tr" spanR (by decide) (by decide) rfl⟩

/-- Helper: pushing a status overwrite through the id-keyed find of the
task list (the update map preserves ids). -/
theorem find_status_map (ts : List Task) (taskId : String) (st : TaskStatus) :
    (ts.map (fun t => if t.id == taskId then { t with status := st } else t)).find?
        (fun t => t.id == taskId)
      = (ts.find? (fun t => t.id == taskId)).map (fun t => { t with status := st }) := by
  induction ts with
  | nil => rfl
  | cons hd tl ih =>
    cases hb : (hd.id == taskId) with
    | true =>
      simp only [List.map_cons, List.find?, hb, if_true, Option.map_some]
      simp [List.find?, hb]
    | false =>
      simp only [List.map_cons, List.find?, hb, if_false, Bool.false_eq_true]
      simp only [List.find?, hb] at *
      simpa [hb] using ih

/-- Helper: `updateTaskStatus` leaves the message table untouched. -/
theorem messages_updateTaskStatus (db : DB) (taskId : String) (st : TaskStatus) :
    (updateTaskStatus db taskId st).messages = db.messages := rfl

/-- Helper: looking up the updated task yields the old record with only
its status overwritten. -/
theorem findTask_updateTaskStatus (db : DB) (taskId : String) (st : TaskStatus) :
    findTask (updateTaskStatus db taskId st) taskId
      = (findTask db taskId).map (fun t => { t with status := st }) := by
  simpa [findTask, updateTaskStatus] using find_status_map db.tasks taskId st

/-- C10: on RESUME with action APPROVED for a task that exists and has a
payload, the worker sets the status to COMPLETED before looking up the
agent; when the agent lookup fails it simply skips the confirmation
Message, so the outcome is a COMPLETED task, an unchanged message table,
and an acknowledged event. -/
theorem c10_resume_missing_agent_completes_task
    (db : DB) (taskId agentId : String) (model : Except String GenResult)
    (task : Task) (payload : Obj)
    (hTask : findTask db taskId = some task)
    (hPayload : task.inputPayload = some payload)
    (hAgent : findAgent db agentId = none) :
    (handleMessage db (.resume taskId agentId "APPROVED") model).decision = .ack ∧
    (handleMessage db (.resume taskId agentId "APPROVED") model).db.messages = db.messages ∧
    findTask (handleMessage db (.resume taskId agentId "APPROVED") model).db taskId
      = some { task with status := .COMPLETED } := by
  have hAgent2 : findAgent (updateTaskStatus db taskId .COMPLETED) agentId = none := hAgent
  simp only [handleMessage, handleResume, hTask, hPayload, hAgent2, ne_eq, not_true_eq_false,
    if_false, messages_updateTaskStatus, findTask_updateTaskStatus]
  simp [hTask]
  exact hPayload

/-- C10 witness: the missing-agent RESUME theorem instantiated at the
agent-free store holding the PENDING task t1. -/
theorem c10_resume_missing_agent_completes_task_witness :
    findTask dbNoAgents "t1" = some taskPend ∧
    findAgent dbNoAgents "a1" = none ∧
    (handleMessage dbNoAgents (.resume "t1" "a1" "APPROVED") noModel).db.messages
      = dbNoAgents.messages ∧
    findTask (handleMessage dbNoAgents (.resume "t1" "a1" "APPROVED") noModel).db "t1"
      = some { taskPend with status := .COMPLETED } :=
  ⟨by decide, by decide,
   (c10_resume_missing_agent_completes_task dbNoAgents "t1" "a1" noModel taskPend payloadEmail
     (by decide) rfl (by decide)).2.1,
   (c10_resume_missing_agent_completes_task dbNoAgents "t1" "a1" noModel taskPend payloadEmail
     (by decide) rfl (by decide)).2.2⟩

end Egap
